import Mathlib

/-!
Shallow embedding of the two driver scripts of the `robotstories-2025-template`
repository (`src/memo/memo_demo.py` and `src/memo/memo_llm.py`) and proofs of
the behavioural claims about them.

External services (speech output, streaming recognition, language-model
completion) are modelled as oracles: a recognition reply stream is a function
`Nat → DfReply` giving the reply to the i-th recognition request, and a
language-model stream is a function `Nat → String`.  The functions below are
line-by-line translations of the Python methods; where a method performs
externally visible requests, the embedding additionally returns the count or
trace of those requests.
-/

/-- Python's substring test `needle in hay` restricted to matching `hay`
starting at its first character (`hay.startswith(needle)`). -/
def strMatchesAt : List Char → List Char → Bool
  | _, [] => true
  | [], _ :: _ => false
  | c :: cs, d :: ds => c == d && strMatchesAt cs ds

/-- Search for `needle` at every position of `hay`. -/
def strFind : List Char → List Char → Bool
  | [], needle => strMatchesAt [] needle
  | c :: cs, needle => strMatchesAt (c :: cs) needle || strFind cs needle

/-- Python's `needle in hay` on strings: contiguous substring containment
(the empty needle is contained in every string). -/
def pyIn (needle hay : String) : Bool := strFind hay.data needle.data

/-- A Dialogflow recognition reply as consumed by the drivers:
`intent` is `reply.intent` (Python-falsy when `""`), `queryText` is
`reply.response.query_result.query_text`, and `params` is
`reply.response.query_result.parameters` as a key/value list
(Python-falsy when empty). -/
structure DfReply where
  intent : String
  queryText : String
  params : List (String × String)
  deriving Repr, DecidableEq

namespace ConversationDemo

/-- The intent-to-answer mapping performed by one loop iteration of
`ConversationDemo.ask_yesno` (memo_demo.py lines 131-141): a truthy intent is
tested for the substrings `"yesno_yes"`, `"yesno_no"`, `"yesno_dontknow"` in
that order; no match (or a falsy intent) falls through to the retry. -/
def classifyYesno (intent : String) : Option String :=
  if intent = "" then none
  else if pyIn "yesno_yes" intent then some "yes"
  else if pyIn "yesno_no" intent then some "no"
  else if pyIn "yesno_dontknow" intent then some "dontknow"
  else none

/-- The retry loop of `ask_yesno`: `i` is the index of the next recognition
request, the `Nat` argument is the number of attempts still allowed
(`max_attempts - attempts`). Returns the result together with the number of
recognition requests issued. -/
def askYesnoGo (replies : Nat → DfReply) (i : Nat) : Nat → Option String × Nat
  | 0 => (none, 0)
  | rem + 1 =>
    match classifyYesno (replies i).intent with
    | some ans => (some ans, 1)
    | none =>
      let r := askYesnoGo replies (i + 1) rem
      (r.1, r.2 + 1)

/-- `ConversationDemo.ask_yesno(question, max_attempts)` (memo_demo.py lines
122-142), with the reply to each recognition request supplied by `replies`. -/
def askYesno (replies : Nat → DfReply) (maxAttempts : Nat) : Option String × Nat :=
  askYesnoGo replies 0 maxAttempts

/-- One loop iteration of `ConversationDemo.ask_entity` (memo_demo.py lines
157-160): a truthy intent containing `target_intent` as a substring yields the
value of `target_entity` when the parameter mapping is truthy and holds that
key; anything else falls through to the retry. -/
def classifyEntity (targetIntent targetEntity : String) (r : DfReply) : Option String :=
  if r.intent = "" then none
  else if pyIn targetIntent r.intent then
    match r.params.lookup targetEntity with
    | some v => some v
    | none => none
  else none

/-- The retry loop of `ask_entity`, with the request count. -/
def askEntityGo (targetIntent targetEntity : String) (replies : Nat → DfReply) (i : Nat) :
    Nat → Option String × Nat
  | 0 => (none, 0)
  | rem + 1 =>
    match classifyEntity targetIntent targetEntity (replies i) with
    | some v => (some v, 1)
    | none =>
      let r := askEntityGo targetIntent targetEntity replies (i + 1) rem
      (r.1, r.2 + 1)

/-- `ConversationDemo.ask_entity(question, context, target_intent,
target_entity, max_attempts)` (memo_demo.py lines 144-162). -/
def askEntity (targetIntent targetEntity : String) (replies : Nat → DfReply)
    (maxAttempts : Nat) : Option String × Nat :=
  askEntityGo targetIntent targetEntity replies 0 maxAttempts

/-- The retry loop of `ask_open` (memo_demo.py lines 164-180): an attempt
succeeds exactly when the recognition transcript
`reply.response.query_result.query_text` is truthy. -/
def askOpenGo (replies : Nat → DfReply) (i : Nat) : Nat → Option String × Nat
  | 0 => (none, 0)
  | rem + 1 =>
    if (replies i).queryText = "" then
      let r := askOpenGo replies (i + 1) rem
      (r.1, r.2 + 1)
    else (some (replies i).queryText, 1)

/-- `ConversationDemo.ask_open(question, max_attempts)` (memo_demo.py lines
164-180). -/
def askOpen (replies : Nat → DfReply) (maxAttempts : Nat) : Option String × Nat :=
  askOpenGo replies 0 maxAttempts

end ConversationDemo

/-- The metadata of a WAV clip as read back by the `wave` module in
`play_audio`: sample width in bytes, frame rate, frame count, and the raw
frame data (abstracted as a byte list). -/
structure WavClip where
  sampleWidth : Nat
  framerate : Nat
  nFrames : Nat
  frames : List Nat
  deriving Repr, DecidableEq

/-- An externally visible device request issued by the demo. -/
inductive DevAction where
  | speakerReq (data : List Nat) (rate : Nat)
  deriving Repr, DecidableEq

namespace ConversationDemo

/-- `ConversationDemo.play_audio(audio_file)` (memo_demo.py lines 109-120):
a clip whose sample width is not 2 bytes raises `ValueError` with the message
built by `"WAV file is not 16-bit audio. Sample width = {} bytes.".format(w)`;
otherwise the frames are sent to the device speaker. The result is the list
of device requests issued, or the error message raised. -/
def playAudio (wf : WavClip) : Except String (List DevAction) :=
  if wf.sampleWidth ≠ 2 then
    Except.error ("WAV file is not 16-bit audio. Sample width = "
      ++ toString wf.sampleWidth ++ " bytes.")
  else
    Except.ok [DevAction.speakerReq wf.frames wf.framerate]

end ConversationDemo

namespace MemoLLM

/-- The retry loop of `MemoLLM.listen(question, speed, max_attempts)`
(memo_llm.py lines 85-99): each attempt speaks the question and issues one
recognition request; the attempt succeeds exactly when
`reply.response.query_result.query_text` is truthy. Returns the result and
the number of recognition requests issued. -/
def listenGo (replies : Nat → DfReply) (i : Nat) : Nat → Option String × Nat
  | 0 => (none, 0)
  | rem + 1 =>
    if (replies i).queryText = "" then
      let r := listenGo replies (i + 1) rem
      (r.1, r.2 + 1)
    else (some (replies i).queryText, 1)

/-- `MemoLLM.listen` started at attempt 0. -/
def listen (replies : Nat → DfReply) (maxAttempts : Nat) : Option String × Nat :=
  listenGo replies 0 maxAttempts

/-- The shared state of the logging session: `pending` is the FIFO contents of
`self.log_queue` (`none` is the sentinel enqueued by `stop_logging`), `lines`
is the sequence of lines the worker has written to the file so far (the worker
writes `item + '\n'`, one line per record, flushing each), and `closed` records
that the worker hit the sentinel, left the `with open` block (closing the
file) and terminated. -/
structure LogWState where
  pending : List (Option String)
  lines : List String
  closed : Bool
  deriving Repr, DecidableEq

/-- One step of the producing driver thread: move the next item of its
submission sequence onto the tail of the FIFO queue (a no-op when it has
nothing left to enqueue). -/
def prodStep (toEnq : List (Option String)) (st : LogWState) :
    List (Option String) × LogWState :=
  match toEnq with
  | [] => ([], st)
  | x :: rest => (rest, { st with pending := st.pending ++ [x] })

/-- One step of the consuming worker thread `MemoLLM.log_writer` (memo_llm.py
lines 62-69): dequeue the head of the FIFO queue; on the `None` sentinel break
out (closing the file), otherwise append the record as one line and flush.
Blocking `get` on an empty queue, and a worker that has already exited, are
no-ops. -/
def consStep (st : LogWState) : LogWState :=
  if st.closed then st
  else
    match st.pending with
    | [] => st
    | none :: rest => { st with pending := rest, closed := true }
    | some r :: rest => { st with pending := rest, lines := st.lines ++ [r] }

/-- Run the two threads under an arbitrary interleaving: `true` schedules the
producer, `false` the worker. Returns the producer's remaining submissions and
the final shared state. -/
def runSched (sched : List Bool) (toEnq : List (Option String)) (st : LogWState) :
    List (Option String) × LogWState :=
  match sched with
  | [] => (toEnq, st)
  | b :: bs =>
    if b then
      let p := prodStep toEnq st
      runSched bs p.1 p.2
    else runSched bs toEnq (consStep st)

/-- Invariant of the logging session tying the file to the submission order:
once the worker has closed, the file holds exactly the submitted records; while
it runs, the items still in flight are the not-yet-written records (in order)
followed by the single sentinel, and writing them would complete the file. -/
def logInv (records : List String) (toEnq : List (Option String)) (st : LogWState) : Prop :=
  (st.closed = true → st.lines = records) ∧
  (st.closed = false →
    ∃ rem, st.pending ++ toEnq = rem.map some ++ [none] ∧ st.lines ++ rem = records)

/-- `MemoLLM.log_writer` run to completion after `stop_logging` has enqueued
the sentinel and `join` blocks on the worker (memo_llm.py lines 56-69):
process the queued items in FIFO order, writing each record as one line, until
the sentinel; the Boolean records that the worker observed the sentinel and
terminated (closing the file). -/
def logWriterRun : List (Option String) → List String × Bool
  | [] => ([], false)
  | none :: _ => ([], true)
  | some r :: rest =>
    let t := logWriterRun rest
    (r :: t.1, t.2)

/-- `MemoLLM.stop_logging` (memo_llm.py lines 56-60): when a queue exists,
enqueue the `None` sentinel; `join` then blocks until the worker terminates. -/
def stopLoggingEnq (q : Option (List (Option String))) : Option (List (Option String)) :=
  match q with
  | some items => some (items ++ [none])
  | none => none

/-- The log path built by `MemoLLM.start_logging` (memo_llm.py lines 46-48):
`Path("logs") / f"{log_id}.log"`. -/
def logPath (logId : String) : String := "logs/" ++ logId ++ ".log"

/-- The start-of-session marker enqueued by `start_logging` (memo_llm.py lines
53-54). -/
def startMarker (ts : String) : String := "[" ++ ts ++ "] ### START NEW LOG ###"

/-- The record format of `MemoLLM.log_utterance` (memo_llm.py line 74). -/
def utteranceLine (ts speaker text : String) : String :=
  "[" ++ ts ++ "] " ++ speaker ++ ": " ++ text

/-- `MemoLLM.log_utterance(speaker, text)` (memo_llm.py lines 71-74) acting on
the queue: when no queue exists (`start_logging` never ran) the call does
nothing; otherwise it formats the record with the current timestamp `ts` and
enqueues it. -/
def logUtterance (q : Option (List (Option String))) (ts speaker text : String) :
    Option (List (Option String)) :=
  match q with
  | none => none
  | some items => some (items ++ [some (utteranceLine ts speaker text)])

/-- The queue contents of a session after `start_logging(log_id)` (which
enqueues the start marker) and a sequence of `log_utterance` calls, each given
as `(timestamp, speaker, text)`. -/
def sessionQueue (ts0 : String) (utts : List (String × String × String)) :
    Option (List (Option String)) :=
  utts.foldl (fun q u => logUtterance q u.1 u.2.1 u.2.2) (some [some (startMarker ts0)])

/-- A whole logging session: `start_logging(log_id)` at time `ts0`, the given
`log_utterance` calls, then `stop_logging`. The result is the log path and
the final file contents; the file is opened with mode `'a'`, so the worker's
lines are appended after any `prior` contents of the file. -/
def sessionFile (prior : List String) (logId ts0 : String)
    (utts : List (String × String × String)) : String × List String :=
  (logPath logId,
   prior ++ (logWriterRun ((stopLoggingEnq (sessionQueue ts0 utts)).getD [])).1)

end MemoLLM

/-- An externally visible action of `MemoLLM.run`: a language-model request
(`self.llm_action`), a call to `self.listen` (which speaks the question and
issues recognition requests), a text-to-speech request (`self.say`), an
utterance enqueued to the log, or the log shutdown (`self.stop_logging`). -/
inductive MAction where
  | llmCall
  | listenCall
  | sayAct (text : String)
  | logU (speaker text : String)
  | stopLog
  deriving Repr, DecidableEq

/-- The closing utterance of `MemoLLM.run` (memo_llm.py lines 153 and 156). -/
def closingText : String :=
  "Oke dat was het weer, bedankt voor dit fijne gesprek. Tot ziens!"

/-- Python's `str.lower()` as used in the sentinel comparison
`llm_response.lower() != 'stop'`: lowercase every character. -/
def pyLower (s : String) : String := String.mk (s.data.map Char.toLower)

namespace MemoLLM

/-- The open-ended while loop of `MemoLLM.run` (memo_llm.py lines 142-152),
as the trace of actions it performs. `llm i` is the language-model response to
the i-th request and `lis i` the text obtained by the `self.listen` call of
the i-th iteration; `prev` is the current value of `llm_response` checked by
the loop condition and `hist` the accumulated `dialog_history`. The `fuel`
argument bounds the number of iterations: `none` means the loop is still
running after `fuel` iterations. -/
def memoLoopFrom (llm : Nat → String) (lis : Nat → String) :
    Nat → Nat → String → String → Option (List MAction)
  | fuel, i, prev, hist =>
    if pyLower prev = "stop" then some []
    else
      match fuel with
      | 0 => none
      | fuel' + 1 =>
        let r := llm i
        if pyLower r = "stop" then
          (memoLoopFrom llm lis fuel' (i + 1) r hist).map (fun t => MAction.llmCall :: t)
        else
          let u := lis i
          let hist' := hist ++ "Memo: " ++ r ++ "\n" ++ "Persoon: " ++ u
          (memoLoopFrom llm lis fuel' (i + 1) r hist').map (fun t =>
            MAction.llmCall :: MAction.logU "Memo" r :: MAction.listenCall ::
              MAction.logU "Persoon" u :: t)

/-- The loop of `MemoLLM.run` followed by its exit code (memo_llm.py lines
153-154): once the loop terminates, the closing utterance is spoken and
logging is stopped. -/
def memoLoopClose (llm : Nat → String) (lis : Nat → String)
    (fuel i : Nat) (prev hist : String) : Option (List MAction) :=
  (memoLoopFrom llm lis fuel i prev hist).map (fun t =>
    t ++ [MAction.sayAct closingText, MAction.stopLog])

/-- A Python exception relevant to `MemoLLM.run`. -/
inductive PyExn where
  | typeError
  | keyboardInterrupt
  deriving Repr, DecidableEq

/-- The required positional parameters of `def start_logging(self, log_id)`
(memo_llm.py line 45) beyond `self`. -/
def startLoggingRequiredArgs : Nat := 1

/-- The positional arguments passed at the call site `self.start_logging()`
inside `run` (memo_llm.py line 141). -/
def runStartLoggingArgs : Nat := 0

/-- Python call semantics for `self.start_logging(...)`: a call supplying
fewer positional arguments than the required parameters raises `TypeError`. -/
def callStartLogging (argCount : Nat) : Except PyExn Unit :=
  if argCount < startLoggingRequiredArgs then Except.error PyExn.typeError
  else Except.ok ()

/-- The `try` body of `MemoLLM.run` (memo_llm.py lines 140-154): call
`self.start_logging()` with no argument, then run the loop and the closing
code. The result is the trace of actions performed together with the
exception escaping the body, if any (`none` in the second component of a
successful run; the first `none` case models a loop still running after
`fuel` iterations). -/
def memoRunBody (llm : Nat → String) (lis : Nat → String) (fuel : Nat) :
    Option (List MAction) × Option PyExn :=
  match callStartLogging runStartLoggingArgs with
  | Except.error e => (some [], some e)
  | Except.ok _ => (memoLoopClose llm lis fuel 0 "" "", none)

/-- `MemoLLM.run` (memo_llm.py lines 139-157): the `try` body wrapped in the
handler `except KeyboardInterrupt`, which speaks the closing utterance and
stops logging; any other exception propagates out of `run` uncaught. -/
def memoRun (llm : Nat → String) (lis : Nat → String) (fuel : Nat) :
    Option (List MAction) × Option PyExn :=
  let b := memoRunBody llm lis fuel
  match b.2 with
  | some PyExn.keyboardInterrupt =>
      (b.1.map (fun t => t ++ [MAction.sayAct closingText, MAction.stopLog]), none)
  | _ => b

end MemoLLM

/-- Shared helper: the worker drains a queue of records followed by the
sentinel, writes every record in order, and terminates. -/
theorem logWriterRun_records_sentinel (records : List String) :
    MemoLLM.logWriterRun (records.map some ++ [none]) = (records, true) := by
  induction records with
  | nil => rfl
  | cons r rs ih => simp [MemoLLM.logWriterRun, ih]

/-- C2: after a session is started, `stop_logging` enqueues the `None`
sentinel behind every pending record, and the joined worker observes the
sentinel only after writing every one of those records, then terminates with
the file closed — `stop_logging` returns with no dangling writer. -/
theorem stop_logging_drains_and_joins (records : List String) :
    MemoLLM.stopLoggingEnq (some (records.map some)) = some (records.map some ++ [none]) ∧
    MemoLLM.logWriterRun (records.map some ++ [none]) = (records, true) :=
  ⟨rfl, logWriterRun_records_sentinel records⟩

/-- C7: `play_audio` rejects a clip whose sample width is not 2 bytes with a
`ValueError` naming the offending width and issues no device request, while a
2-byte clip passes the check and produces exactly the speaker request. -/
theorem play_audio_sample_width_check (wf : WavClip) :
    (wf.sampleWidth ≠ 2 →
      ConversationDemo.playAudio wf =
        Except.error ("WAV file is not 16-bit audio. Sample width = "
          ++ toString wf.sampleWidth ++ " bytes.")) ∧
    (wf.sampleWidth = 2 →
      ConversationDemo.playAudio wf =
        Except.ok [DevAction.speakerReq wf.frames wf.framerate]) := by
  constructor
  · intro h
    simp [ConversationDemo.playAudio, h]
  · intro h
    simp [ConversationDemo.playAudio, h]

/-- Witness for C7 at concrete clips: a 3-byte clip is rejected with the
descriptive message and a 2-byte clip reaches the speaker. -/
theorem play_audio_sample_width_check_witness :
    ConversationDemo.playAudio ⟨3, 44100, 5, [0, 1]⟩ =
      Except.error "WAV file is not 16-bit audio. Sample width = 3 bytes." ∧
    ConversationDemo.playAudio ⟨2, 44100, 5, [0, 1]⟩ =
      Except.ok [DevAction.speakerReq [0, 1] 44100] :=
  ⟨(play_audio_sample_width_check ⟨3, 44100, 5, [0, 1]⟩).1 (by decide),
   (play_audio_sample_width_check ⟨2, 44100, 5, [0, 1]⟩).2 rfl⟩

/-- C9: `log_utterance` called when no logging session was ever started
(`self.log_queue` is `None`) returns without raising and leaves the state
unchanged: no record is enqueued. -/
theorem log_utterance_before_start_noop (ts speaker text : String) :
    MemoLLM.logUtterance none ts speaker text = none := rfl

/-- C4: when the very first recognition reply carries a matching intent,
`ask_yesno` returns that answer after exactly one recognition request; in
particular a first reply with intent `"yesno_no"` yields `"no"` after one
request. -/
theorem ask_yesno_first_match_single_request (replies : Nat → DfReply) (n : Nat)
    (h : 0 < n) :
    (∀ ans, ConversationDemo.classifyYesno (replies 0).intent = some ans →
      ConversationDemo.askYesno replies n = (some ans, 1)) ∧
    ((replies 0).intent = "yesno_no" →
      ConversationDemo.askYesno replies n = (some "no", 1)) := by
  obtain ⟨m, rfl⟩ : ∃ m, n = m + 1 := ⟨n - 1, (Nat.succ_pred_eq_of_pos h).symm⟩
  constructor
  · intro ans hans
    simp [ConversationDemo.askYesno, ConversationDemo.askYesnoGo, hans]
  · intro hi
    have : ConversationDemo.classifyYesno (replies 0).intent = some "no" := by
      rw [hi]; decide
    simp [ConversationDemo.askYesno, ConversationDemo.askYesnoGo, this]

/-- Witness for C4: a reply stream answering `"yesno_no"` immediately makes
`ask_yesno` with `max_attempts = 2` return `"no"` after a single request. -/
theorem ask_yesno_first_match_single_request_witness :
    ConversationDemo.askYesno (fun _ => ⟨"yesno_no", "", []⟩) 2 = (some "no", 1) :=
  (ask_yesno_first_match_single_request (fun _ => ⟨"yesno_no", "", []⟩) 2
    (by decide)).2 rfl

/-- C10: `ask_yesno` maps intents by substring containment in the fixed
priority order yes, no, dontknow: any intent containing `"yesno_yes"` yields
`"yes"` even when the other substrings are also present, a non-empty intent
containing none of the three substrings is a miss, and a missed first attempt
is retried (the remaining attempts run and one extra request is counted). -/
theorem ask_yesno_substring_priority :
    (∀ intent, pyIn "yesno_yes" intent = true →
      ConversationDemo.classifyYesno intent = some "yes") ∧
    (∀ intent, intent ≠ "" → pyIn "yesno_yes" intent = false →
      pyIn "yesno_no" intent = false → pyIn "yesno_dontknow" intent = false →
      ConversationDemo.classifyYesno intent = none) ∧
    (∀ (replies : Nat → DfReply) (n : Nat),
      ConversationDemo.classifyYesno (replies 0).intent = none →
      ConversationDemo.askYesno replies (n + 1) =
        ((ConversationDemo.askYesnoGo replies 1 n).1,
         (ConversationDemo.askYesnoGo replies 1 n).2 + 1)) := by
  refine ⟨?_, ?_, ?_⟩
  · intro intent h
    have hne : ¬ intent = "" := by
      intro he
      rw [he] at h
      exact absurd h (by decide)
    simp [ConversationDemo.classifyYesno, hne, h]
  · intro intent hne h1 h2 h3
    simp [ConversationDemo.classifyYesno, hne, h1, h2, h3]
  · intro replies n h
    simp [ConversationDemo.askYesno, ConversationDemo.askYesnoGo, h]

/-- Witness for C10: an intent containing all three substrings maps to
`"yes"`, the unrelated intent `"greeting_hello"` is a miss, and a missed
first attempt of a two-attempt call leads to a second request. -/
theorem ask_yesno_substring_priority_witness :
    ConversationDemo.classifyYesno "yesno_yes_yesno_no_yesno_dontknow" = some "yes" ∧
    ConversationDemo.classifyYesno "greeting_hello" = none ∧
    ConversationDemo.askYesno (fun _ => ⟨"greeting_hello", "", []⟩) 2 = (none, 2) := by
  refine ⟨ask_yesno_substring_priority.1 _ (by decide),
          ask_yesno_substring_priority.2.1 _ (by decide) (by decide) (by decide) (by decide),
          ?_⟩
  have h := ask_yesno_substring_priority.2.2 (fun _ => ⟨"greeting_hello", "", []⟩) 1
    (by decide)
  rw [h]
  decide

/-- Shared helper: a reply whose intent is falsy or contains none of the
three yes/no substrings maps to no answer. -/
theorem classifyYesno_none_of_miss (intent : String)
    (h : intent = "" ∨ (pyIn "yesno_yes" intent = false ∧
      pyIn "yesno_no" intent = false ∧ pyIn "yesno_dontknow" intent = false)) :
    ConversationDemo.classifyYesno intent = none := by
  rcases h with h | ⟨h1, h2, h3⟩
  · simp [ConversationDemo.classifyYesno, h]
  · by_cases he : intent = "" <;>
      simp [ConversationDemo.classifyYesno, he, h1, h2, h3]

/-- Shared helper: a reply missing the target intent or the target entity
yields no value in `ask_entity`. -/
theorem classifyEntity_none_of_miss (tIntent tEntity : String) (r : DfReply)
    (h : r.intent = "" ∨ pyIn tIntent r.intent = false ∨
      r.params.lookup tEntity = none) :
    ConversationDemo.classifyEntity tIntent tEntity r = none := by
  by_cases he : r.intent = ""
  · simp [ConversationDemo.classifyEntity, he]
  · rcases h with h | h | h
    · exact absurd h he
    · simp [ConversationDemo.classifyEntity, he, h]
    · by_cases hp : pyIn tIntent r.intent <;>
        simp [ConversationDemo.classifyEntity, he, hp, h]

/-- Shared helper: `ask_yesno` with only missed attempts issues one request
per remaining attempt and returns `none`. -/
theorem askYesnoGo_all_miss (replies : Nat → DfReply)
    (h : ∀ i, ConversationDemo.classifyYesno (replies i).intent = none) :
    ∀ rem i, ConversationDemo.askYesnoGo replies i rem = (none, rem) := by
  intro rem
  induction rem with
  | zero => intro i; rfl
  | succ m ih => intro i; simp [ConversationDemo.askYesnoGo, h i, ih (i + 1)]

/-- Shared helper: `ask_entity` with only missed attempts issues one request
per remaining attempt and returns `none`. -/
theorem askEntityGo_all_miss (tIntent tEntity : String) (replies : Nat → DfReply)
    (h : ∀ i, ConversationDemo.classifyEntity tIntent tEntity (replies i) = none) :
    ∀ rem i, ConversationDemo.askEntityGo tIntent tEntity replies i rem = (none, rem) := by
  intro rem
  induction rem with
  | zero => intro i; rfl
  | succ m ih => intro i; simp [ConversationDemo.askEntityGo, h i, ih (i + 1)]

/-- Shared helper: `ask_open` with only empty transcripts issues one request
per remaining attempt and returns `none`. -/
theorem askOpenGo_all_miss (replies : Nat → DfReply)
    (h : ∀ i, (replies i).queryText = "") :
    ∀ rem i, ConversationDemo.askOpenGo replies i rem = (none, rem) := by
  intro rem
  induction rem with
  | zero => intro i; rfl
  | succ m ih => intro i; simp [ConversationDemo.askOpenGo, h i, ih (i + 1)]

/-- Shared helper: `listen` with only empty transcripts issues one request
per remaining attempt and returns `none`. -/
theorem listenGo_all_miss (replies : Nat → DfReply)
    (h : ∀ i, (replies i).queryText = "") :
    ∀ rem i, MemoLLM.listenGo replies i rem = (none, rem) := by
  intro rem
  induction rem with
  | zero => intro i; rfl
  | succ m ih => intro i; simp [MemoLLM.listenGo, h i, ih (i + 1)]

/-- C3: with `max_attempts = n`, each ask primitive whose replies never carry
a matching intent (never carry transcript text, for the open variants) issues
exactly `n` recognition requests, one fresh request per attempt, and returns
the absent result `none` instead of raising. -/
theorem ask_exhaustion_returns_none (r1 r2 r3 r4 : Nat → DfReply)
    (tIntent tEntity : String) (n : Nat)
    (h1 : ∀ i, (r1 i).intent = "" ∨ (pyIn "yesno_yes" (r1 i).intent = false ∧
      pyIn "yesno_no" (r1 i).intent = false ∧
      pyIn "yesno_dontknow" (r1 i).intent = false))
    (h2 : ∀ i, (r2 i).intent = "" ∨ pyIn tIntent (r2 i).intent = false ∨
      (r2 i).params.lookup tEntity = none)
    (h3 : ∀ i, (r3 i).queryText = "")
    (h4 : ∀ i, (r4 i).queryText = "") :
    ConversationDemo.askYesno r1 n = (none, n) ∧
    ConversationDemo.askEntity tIntent tEntity r2 n = (none, n) ∧
    ConversationDemo.askOpen r3 n = (none, n) ∧
    MemoLLM.listen r4 n = (none, n) :=
  ⟨askYesnoGo_all_miss r1 (fun i => classifyYesno_none_of_miss _ (h1 i)) n 0,
   askEntityGo_all_miss tIntent tEntity r2
     (fun i => classifyEntity_none_of_miss _ _ _ (h2 i)) n 0,
   askOpenGo_all_miss r3 h3 n 0,
   listenGo_all_miss r4 h4 n 0⟩

/-- Witness for C3: with two attempts and replies that never match (an
unrelated intent for the closed primitives, an empty transcript for the open
ones), all four primitives issue exactly two requests and return `none`. -/
theorem ask_exhaustion_returns_none_witness :
    ConversationDemo.askYesno (fun _ => ⟨"greeting_hello", "", []⟩) 2 = (none, 2) ∧
    ConversationDemo.askEntity "animals" "animals"
      (fun _ => ⟨"greeting_hello", "", []⟩) 2 = (none, 2) ∧
    ConversationDemo.askOpen (fun _ => ⟨"", "", []⟩) 2 = (none, 2) ∧
    MemoLLM.listen (fun _ => ⟨"", "", []⟩) 2 = (none, 2) :=
  ask_exhaustion_returns_none (fun _ => ⟨"greeting_hello", "", []⟩)
    (fun _ => ⟨"greeting_hello", "", []⟩) (fun _ => ⟨"", "", []⟩)
    (fun _ => ⟨"", "", []⟩) "animals" "animals" 2
    (fun _ => Or.inr ⟨rfl, rfl, rfl⟩)
    (fun _ => Or.inr (Or.inl rfl))
    (fun _ => rfl) (fun _ => rfl)

/-- C5: in the open-ended loop of `MemoLLM.run`, a language-model response
equal to the sentinel `"stop"` compared case-insensitively terminates the
loop without any further `listen` call; the closing utterance is then spoken
and logging is stopped. -/
theorem run_loop_stop_sentinel (llm lis : Nat → String) (fuel i : Nat)
    (prev hist : String) (h1 : ¬ pyLower prev = "stop")
    (h2 : pyLower (llm i) = "stop") :
    MemoLLM.memoLoopClose llm lis (fuel + 1) i prev hist =
      some [MAction.llmCall, MAction.sayAct closingText, MAction.stopLog] ∧
    MAction.listenCall ∉
      [MAction.llmCall, MAction.sayAct closingText, MAction.stopLog] := by
  constructor
  · have hinner : MemoLLM.memoLoopFrom llm lis fuel (i + 1) (llm i) hist = some [] := by
      cases fuel <;> simp [MemoLLM.memoLoopFrom, h2]
    simp [MemoLLM.memoLoopClose, MemoLLM.memoLoopFrom, h1, h2, hinner]
  · decide

/-- Witness for C5: a first response of mixed-case `"Stop"` yields exactly
the trace model request, closing utterance, log shutdown. -/
theorem run_loop_stop_sentinel_witness :
    MemoLLM.memoLoopClose (fun _ => "Stop") (fun _ => "") 1 0 "" "" =
      some [MAction.llmCall, MAction.sayAct closingText, MAction.stopLog] :=
  (run_loop_stop_sentinel (fun _ => "Stop") (fun _ => "") 0 0 "" ""
    (by decide) rfl).1

/-- C6: every call of `MemoLLM.run` fails with a `TypeError` before any
language-model or recognition request, because line 141 calls
`self.start_logging()` without the required `log_id` argument; `TypeError`
is not `KeyboardInterrupt`, so the handler does not catch it and it
propagates out of `run`. -/
theorem run_start_logging_type_error (llm lis : Nat → String) (fuel : Nat) :
    MemoLLM.memoRun llm lis fuel = (some [], some MemoLLM.PyExn.typeError) ∧
    MemoLLM.PyExn.typeError ≠ MemoLLM.PyExn.keyboardInterrupt :=
  ⟨rfl, by decide⟩

/-- Shared helper: the queue built by a started session holds the start
marker first and then the formatted utterance records in call order. -/
theorem sessionQueue_eq (ts0 : String) (utts : List (String × String × String)) :
    MemoLLM.sessionQueue ts0 utts =
      some ((MemoLLM.startMarker ts0 ::
        utts.map (fun u => MemoLLM.utteranceLine u.1 u.2.1 u.2.2)).map some) := by
  suffices h : ∀ (us : List (String × String × String)) (q : List (Option String)),
      us.foldl (fun a u => MemoLLM.logUtterance a u.1 u.2.1 u.2.2) (some q) =
      some (q ++ us.map (fun u => some (MemoLLM.utteranceLine u.1 u.2.1 u.2.2))) by
    rw [MemoLLM.sessionQueue, h]
    simp [Function.comp]
  intro us
  induction us with
  | nil => intro q; simp
  | cons u tail ih =>
    intro q
    rw [List.foldl_cons]
    have hstep : MemoLLM.logUtterance (some q) u.1 u.2.1 u.2.2 =
        some (q ++ [some (MemoLLM.utteranceLine u.1 u.2.1 u.2.2)]) := rfl
    rw [hstep, ih]
    simp

/-- C8: a full session writes, at path `logs/<session-id>.log` and by
appending after any prior file contents, first the start marker
`[<timestamp>] ### START NEW LOG ###` (enqueued by `start_logging` before any
utterance can be enqueued) and then one line per utterance, each of the form
`[<timestamp>] <speaker>: <text>`. -/
theorem session_log_file_format (prior : List String) (logId ts0 : String)
    (utts : List (String × String × String)) :
    MemoLLM.sessionFile prior logId ts0 utts =
      ("logs/" ++ logId ++ ".log",
       prior ++ MemoLLM.startMarker ts0 ::
         utts.map (fun u => MemoLLM.utteranceLine u.1 u.2.1 u.2.2)) ∧
    MemoLLM.startMarker ts0 = "[" ++ ts0 ++ "] ### START NEW LOG ###" ∧
    ∀ u ∈ utts, ∃ ts sp tx,
      MemoLLM.utteranceLine u.1 u.2.1 u.2.2 = "[" ++ ts ++ "] " ++ sp ++ ": " ++ tx := by
  refine ⟨?_, rfl, fun u _ => ⟨u.1, u.2.1, u.2.2, rfl⟩⟩
  rw [MemoLLM.sessionFile, sessionQueue_eq]
  simp only [MemoLLM.stopLoggingEnq, Option.getD_some,
    logWriterRun_records_sentinel]
  rfl

/-- Witness for C8 at a concrete session: one prior line, one utterance. -/
theorem session_log_file_format_witness :
    MemoLLM.sessionFile ["old line"] "sess1" "T0" [("T1", "Memo", "hoi")] =
      ("logs/sess1.log",
       ["old line", "[T0] ### START NEW LOG ###", "[T1] Memo: hoi"]) :=
  (session_log_file_format ["old line"] "sess1" "T0" [("T1", "Memo", "hoi")]).1.trans
    (by decide)

/-- Shared helper: a producer step preserves the logging invariant. -/
theorem logInv_prodStep (records : List String) (toEnq : List (Option String))
    (st : MemoLLM.LogWState) (h : MemoLLM.logInv records toEnq st) :
    MemoLLM.logInv records (MemoLLM.prodStep toEnq st).1 (MemoLLM.prodStep toEnq st).2 := by
  obtain ⟨hc, ho⟩ := h
  cases toEnq with
  | nil => exact ⟨hc, ho⟩
  | cons x rest =>
    refine ⟨hc, fun hcl => ?_⟩
    obtain ⟨rem, h1, h2⟩ := ho hcl
    refine ⟨rem, ?_, h2⟩
    simp only [MemoLLM.prodStep, List.append_assoc, List.singleton_append]
    exact h1

/-- Shared helper: a worker step preserves the logging invariant. -/
theorem logInv_consStep (records : List String) (toEnq : List (Option String))
    (st : MemoLLM.LogWState) (h : MemoLLM.logInv records toEnq st) :
    MemoLLM.logInv records toEnq (MemoLLM.consStep st) := by
  obtain ⟨pending, lines, closed⟩ := st
  obtain ⟨hc, ho⟩ := h
  cases closed with
  | true =>
    have hl : lines = records := hc rfl
    exact ⟨fun _ => hl, fun hfalse => by simp [MemoLLM.consStep] at hfalse⟩
  | false =>
    obtain ⟨rem, h1, h2⟩ := ho rfl
    cases pending with
    | nil => exact ⟨hc, fun _ => ⟨rem, h1, h2⟩⟩
    | cons o rest =>
      cases o with
      | none =>
        cases rem with
        | nil =>
          refine ⟨fun _ => ?_, fun hfalse => ?_⟩
          · simpa using h2
          · simp [MemoLLM.consStep] at hfalse
        | cons r rem' => simp at h1
      | some r =>
        cases rem with
        | nil => simp at h1
        | cons r0 rem' =>
          obtain ⟨hr, hrest⟩ : r = r0 ∧ rest ++ toEnq = List.map some rem' ++ [none] := by
            simpa using h1
          refine ⟨fun hfalse => ?_, fun _ => ?_⟩
          · simp [MemoLLM.consStep] at hfalse
          · refine ⟨rem', ?_, ?_⟩
            · simpa [MemoLLM.consStep] using hrest
            · show (lines ++ [r]) ++ rem' = records
              rw [List.append_assoc, List.singleton_append, hr]
              exact h2

/-- Shared helper: any interleaving of producer and worker steps preserves
the logging invariant. -/
theorem logInv_runSched (records : List String) (sched : List Bool) :
    ∀ (toEnq : List (Option String)) (st : MemoLLM.LogWState),
      MemoLLM.logInv records toEnq st →
      MemoLLM.logInv records (MemoLLM.runSched sched toEnq st).1
        (MemoLLM.runSched sched toEnq st).2 := by
  induction sched with
  | nil => intro toEnq st h; exact h
  | cons b bs ih =>
    intro toEnq st h
    cases b
    · simpa [MemoLLM.runSched] using ih toEnq (MemoLLM.consStep st) (logInv_consStep _ _ _ h)
    · simpa [MemoLLM.runSched] using
        ih (MemoLLM.prodStep toEnq st).1 (MemoLLM.prodStep toEnq st).2
          (logInv_prodStep _ _ _ h)

/-- Shared helper: the invariant holds before either thread has run. -/
theorem logInv_init (records : List String) :
    MemoLLM.logInv records (records.map some ++ [none]) ⟨[], [], false⟩ :=
  ⟨by simp, fun _ => ⟨records, by simp, by simp⟩⟩

/-- C1: under every interleaving of the driver thread (enqueuing the session's
records in submission order, then the sentinel) with the worker thread, the
file always holds a prefix of the submitted records, one line per record, in
exactly the submission order; and once the worker finishes it holds all of
them. -/
theorem log_writer_preserves_submission_order (records : List String)
    (sched : List Bool) :
    (∃ rem,
      ((MemoLLM.runSched sched (records.map some ++ [none]) ⟨[], [], false⟩).2).lines
        ++ rem = records) ∧
    (((MemoLLM.runSched sched (records.map some ++ [none]) ⟨[], [], false⟩).2).closed = true →
      ((MemoLLM.runSched sched (records.map some ++ [none]) ⟨[], [], false⟩).2).lines
        = records) := by
  have h := logInv_runSched records sched (records.map some ++ [none]) ⟨[], [], false⟩
    (logInv_init records)
  obtain ⟨hc, ho⟩ := h
  refine ⟨?_, hc⟩
  by_cases hcl :
    ((MemoLLM.runSched sched (records.map some ++ [none]) ⟨[], [], false⟩).2).closed = true
  · exact ⟨[], by simpa using hc hcl⟩
  · have hb :
      ((MemoLLM.runSched sched (records.map some ++ [none]) ⟨[], [], false⟩).2).closed
        = false := by simpa using hcl
    obtain ⟨rem, _, h2⟩ := ho hb
    exact ⟨rem, h2⟩

/-- Witness for C1: records A, B enqueued and drained under a concrete
interleaving end up in the file as A then B. -/
theorem log_writer_preserves_submission_order_witness :
    ((MemoLLM.runSched [true, false, true, true, false, false]
      (["A", "B"].map some ++ [none]) ⟨[], [], false⟩).2).lines = ["A", "B"] :=
  (log_writer_preserves_submission_order ["A", "B"]
    [true, false, true, true, false, false]).2 (by decide)
